import Mathlib

/-!
Verification of the Windows WireGuard tunnel manager (`vpn.py`) against its
natural-language specification.  Python strings are modelled as `List Char`;
exceptions raised by `subprocess`/`requests` calls are modelled as explicit
failure flags in small "world" structures; Python dicts are modelled as
insertion-ordered association lists with in-place update, matching CPython
semantics.
-/

namespace VpnClient

/-- Python whitespace predicate used by `str.strip()` (ASCII-range fragment,
which is all the manager's inputs use). -/
def isPySpace (c : Char) : Bool := c.isWhitespace

/-- `str.lstrip()` on a character list. -/
def lstrip (l : List Char) : List Char := l.dropWhile isPySpace

/-- `str.rstrip()` on a character list (drop trailing whitespace, i.e.
`List.rdropWhile`, which reverses, drops leading whitespace, reverses). -/
def rstrip (l : List Char) : List Char := List.rdropWhile isPySpace l

/-- `str.strip()` on a character list: drop whitespace on both ends. -/
def pyStrip (l : List Char) : List Char := rstrip (lstrip l)

/-- `"\n".split` behaviour of Python `str.split('\n')`: split on every
newline, keeping empty pieces. -/
def splitNl (l : List Char) : List (List Char) := l.splitOn '\n'

/-- Python `str.lower()` (per-character, as used for section names). -/
def pyLower (l : List Char) : List Char := l.map Char.toLower

/-- CPython dict assignment `d[k] = v`: replace the value in place if the key
is present, otherwise append the binding. -/
def dictSet (m : List (List Char × List Char)) (k v : List Char) :
    List (List Char × List Char) :=
  if m.any (fun p => p.1 = k) then
    m.map (fun p => if p.1 = k then (k, v) else p)
  else m ++ [(k, v)]

/-- Dict lookup `d[k]` (first binding wins; with `dictSet` keys are unique). -/
def dictGet (m : List (List Char × List Char)) (k : List Char) :
    Option (List Char) :=
  (m.find? (fun p => p.1 = k)).map (fun p => p.2)

/-- Parser state of `parse_config`: the current section (lower-cased header
text, `none` before any header) and the two accumulated mappings. -/
structure ParseState where
  cur : Option (List Char)
  interface_config : List (List Char × List Char)
  peer_config : List (List Char × List Char)
  deriving Repr, DecidableEq

/-- Initial parser state. -/
def initState : ParseState := ⟨none, [], []⟩

/-- One iteration of the `for line in lines` loop of `parse_config`:
strip the line; skip blanks and `#` comments; a `[...]` line sets the current
section (lower-cased); otherwise a line containing `=` is split at the first
`=` and the stripped key/value pair is stored in the mapping of the current
section, keys under sections other than `interface`/`peer` being dropped. -/
def processLine (st : ParseState) (rawLine : List Char) : ParseState :=
  let line := pyStrip rawLine
  if line.isEmpty then st
  else if line.head? = some '#' then st
  else if line.head? = some '[' ∧ line.getLast? = some ']' then
    { st with cur := some (pyLower (line.drop 1 |>.dropLast)) }
  else if line.contains '=' then
    let key := pyStrip (line.takeWhile (fun c => c ≠ '='))
    let value := pyStrip ((line.dropWhile (fun c => c ≠ '=')).drop 1)
    if st.cur = some ("interface".toList) then
      { st with interface_config := dictSet st.interface_config key value }
    else if st.cur = some ("peer".toList) then
      { st with peer_config := dictSet st.peer_config key value }
    else st
  else st

/-- `parse_config`: strip the whole text, split on newlines, and fold the
per-line processing over the resulting lines. -/
def parse_config (text : List Char) : ParseState :=
  (splitNl (pyStrip text)).foldl processLine initState

/-- `create_config_file` writes `self.full_config.strip()` to the transient
config file: the on-disk ConfigArtifact content is the stripped raw text. -/
def create_config_text (text : List Char) : List Char := pyStrip text

/-- The three activation strategies of the chain. -/
inductive Strategy
  | service
  | quick
  | manual
  deriving Repr, DecidableEq, Fintype

/-- Outcomes of the external calls an activation episode can make.
`wgExeExists` models `os.path.exists(wireguard.exe)`; each `Ok` flag is true
when the corresponding subprocess invocation returns exit status zero (a
raised exception is modelled like a non-zero exit, since both take the same
fallback branch in the source). -/
structure ActWorld where
  wgExeExists : Bool
  installOk : Bool
  quickOk : Bool
  manualOk : Bool
  deriving Repr, DecidableEq, Fintype

/-- `start_tunnel_manual_windows`: run the PowerShell `wg setconf` script;
succeed exactly when it exits zero.  Returns the result together with the
trace of strategies actually attempted by the call. -/
def start_tunnel_manual_windows (w : ActWorld) : Bool × List Strategy :=
  (w.manualOk, [Strategy.manual])

/-- `start_tunnel_wg_quick`: run `wg-quick up`; on success return true, on
non-zero exit or exception fall back to the manual strategy. -/
def start_tunnel_wg_quick (w : ActWorld) : Bool × List Strategy :=
  if w.quickOk then (true, [Strategy.quick])
  else
    let m := start_tunnel_manual_windows w
    (m.1, Strategy.quick :: m.2)

/-- `start_tunnel_windows_service`: when `wireguard.exe` exists, run
`/installtunnelservice`; on success return true, otherwise fall back to
`start_tunnel_wg_quick`.  When the executable is missing, fall back to
`start_tunnel_wg_quick` without attempting the install at all. -/
def start_tunnel_windows_service (w : ActWorld) : Bool × List Strategy :=
  if w.wgExeExists then
    if w.installOk then (true, [Strategy.service])
    else
      let q := start_tunnel_wg_quick w
      (q.1, Strategy.service :: q.2)
  else start_tunnel_wg_quick w

/-- The `or`-chain of `run`:
`start_tunnel_windows_service() or start_tunnel_wg_quick() or
start_tunnel_manual_windows()`, short-circuiting on the first truthy result,
with the concatenated trace of attempted strategies. -/
def activation_chain (w : ActWorld) : Bool × List Strategy :=
  let s := start_tunnel_windows_service w
  if s.1 then s
  else
    let q := start_tunnel_wg_quick w
    if q.1 then (true, s.2 ++ q.2)
    else
      let m := start_tunnel_manual_windows w
      (m.1, s.2 ++ q.2 ++ m.2)

/-- Events observable during a run of the manager. -/
inductive Ev
  | discover
  | writeConfig
  | attempt (s : Strategy)
  | verify
  | healthCheck (up : Bool)
  | restart (trace : List Strategy) (ok : Bool)
  | stopTunnel
  | cleanup
  deriving Repr, DecidableEq

/-- One supervision tick: the health-check outcome the 30-second wake
observes, plus the outcomes of the external calls a restart attempt would
make at that moment. -/
structure HTick where
  up : Bool
  w : ActWorld
  deriving Repr, DecidableEq

/-- The `while True` supervision loop, driven by a finite script of ticks.
The loop only ends from inside on a failed restart (`break`); an exhausted
script models an episode cut short from outside (cancellation or an
unexpected exception).  Returns the episode's events and whether the loop
exited via the `break` after a failed restart. -/
def supervise : List HTick → List Ev × Bool
  | [] => ([], false)
  | t :: rest =>
    if t.up then
      (Ev.healthCheck true :: (supervise rest).1, (supervise rest).2)
    else if (start_tunnel_wg_quick t.w).1 then
      (Ev.healthCheck false ::
        Ev.restart (start_tunnel_wg_quick t.w).2 true :: (supervise rest).1,
       (supervise rest).2)
    else
      ([Ev.healthCheck false,
        Ev.restart (start_tunnel_wg_quick t.w).2 false], true)

/-- What ends a supervision episode whose tick script ran out: the user's
interrupt signal (`KeyboardInterrupt` raised in the sleep, caught by the
inner handler) or an unexpected exception (caught by the outer handler). -/
inductive Interrupt
  | cancel
  | exc
  deriving Repr, DecidableEq

/-- A whole execution scenario of `run`. -/
structure RunWorld where
  isAdmin : Bool
  engineFound : Bool
  createOk : Bool
  act : ActWorld
  health : List HTick
  intr : Interrupt
  deriving Repr, DecidableEq

/-- `run`: admin check, engine discovery, original-IP lookup, config-file
write, activation chain, connection test, supervision loop, and the
`except KeyboardInterrupt` / `except Exception` / `finally` epilogue of the
source.  Returns the Python return value and the event trace.  The
`finally` block (artifact cleanup) also runs on the early `return False`
after an exhausted activation chain, because that `return` sits inside the
`try`. -/
def run (w : RunWorld) : Bool × List Ev :=
  if !w.isAdmin then (false, [])
  else if !w.engineFound then (false, [Ev.discover])
  else if !w.createOk then (false, [Ev.discover])
  else
    let a := activation_chain w.act
    let pre := Ev.discover :: Ev.writeConfig :: a.2.map Ev.attempt
    if !a.1 then (false, pre ++ [Ev.cleanup])
    else
      let s := supervise w.health
      if s.2 then (true, (pre ++ Ev.verify :: s.1) ++ [Ev.cleanup])
      else
        match w.intr with
        | Interrupt.cancel =>
            (true, (pre ++ Ev.verify :: s.1 ++ [Ev.stopTunnel]) ++ [Ev.cleanup])
        | Interrupt.exc =>
            (true, (pre ++ Ev.verify :: s.1) ++ [Ev.cleanup])

/-- The three-way classification `test_connection` prints for the observed
post-tunnel IP. -/
inductive IPClass
  | confirmedChanged
  | changedUnconfirmed
  | unchanged
  deriving Repr, DecidableEq

/-- The hardcoded expected tunnel-exit IP (the peer endpoint host). -/
def vpn_exit_ip : String := "34.102.88.164"

/-- The hardcoded pre-tunnel ("original") IP. -/
def pre_tunnel_ip : String := "49.145.198.195"

/-- The classification cascade of `test_connection`, paired with whether
`diagnose_windows_connection` is invoked: equal to the exit IP means
confirmed changed; otherwise different from the pre-tunnel IP means changed
(unconfirmed); otherwise unchanged, triggering diagnostics. -/
def test_connection_classify (newIp : String) : IPClass × Bool :=
  if newIp = vpn_exit_ip then (IPClass.confirmedChanged, false)
  else if newIp ≠ pre_tunnel_ip then (IPClass.changedUnconfirmed, false)
  else (IPClass.unchanged, true)

/-- Outcomes of the two external-IP lookups; `none` models a raised request
(error or timeout), `some t` the response body text. -/
structure NetWorld where
  ipify : Option String
  ifconfigMe : Option String
  deriving Repr, DecidableEq

/-- `str.strip()` lifted back to `String`. -/
def pyStripStr (s : String) : String := String.mk (pyStrip s.data)

/-- `get_real_ip`: try the primary lookup, fall back to the secondary on a
raised request, and return the fixed sentinel when both raise. -/
def get_real_ip (w : NetWorld) : String :=
  match w.ipify with
  | some t => pyStripStr t
  | none =>
    match w.ifconfigMe with
    | some t => pyStripStr t
    | none => "Unable to determine"

/-- The fixed tunnel interface identifier. -/
def interface_name : String := "wg0"

/-- Python `needle in hay` substring test. -/
def strContains (hay needle : String) : Bool := decide (needle.data <:+: hay.data)

/-- Outcomes of the two status probes; `none` models a raised call, `some`
carries (returncode, stdout) for `wg show` and stdout for `sc query`. -/
structure StatusWorld where
  wgShow : Option (Int × String)
  scQuery : Option String
  deriving Repr, DecidableEq

/-- `check_tunnel_status_windows`: the tunnel counts as up when `wg show`
exits zero with the interface name in its output, or else when the `sc`
query output contains RUNNING; any raised call is caught and yields
`False`. -/
def check_tunnel_status_windows (w : StatusWorld) : Bool :=
  match w.wgShow with
  | none => false
  | some r =>
    if r.1 == 0 && strContains r.2 interface_name then true
    else
      match w.scQuery with
      | none => false
      | some out => strContains out "RUNNING"

/-- The three teardown calls of `stop_tunnel_windows`. -/
inductive TDAct
  | scStop
  | quickDown
  | uninstall
  deriving Repr, DecidableEq

/-- Which teardown calls raise, and whether `wireguard.exe` is present
(the guard for the uninstall call).  Exit codes are irrelevant: the source
never inspects them here. -/
structure TDWorld where
  scStopRaises : Bool
  quickDownRaises : Bool
  wgExeExists : Bool
  uninstallRaises : Bool
  deriving Repr, DecidableEq, Fintype

/-- `stop_tunnel_windows`: run `sc stop`, then `wg-quick down`, then (when
`wireguard.exe` exists) `/uninstalltunnelservice`, ignoring exit codes; a
raised exception anywhere jumps to the boundary handler, which logs and
returns `False`, skipping the remaining calls.  Returns the Python result
and the calls attempted. -/
def stop_tunnel_windows (w : TDWorld) : Bool × List TDAct :=
  if w.scStopRaises then (false, [TDAct.scStop])
  else if w.quickDownRaises then (false, [TDAct.scStop, TDAct.quickDown])
  else if w.wgExeExists then
    if w.uninstallRaises then
      (false, [TDAct.scStop, TDAct.quickDown, TDAct.uninstall])
    else (true, [TDAct.scStop, TDAct.quickDown, TDAct.uninstall])
  else (true, [TDAct.scStop, TDAct.quickDown])

/-- `cleanup_windows` acting on the on-disk ConfigArtifact: delete it if
present; a raised `unlink` is swallowed with a warning and leaves the file.
Returns (artifact still present afterwards, a warning was printed). -/
def cleanup_windows (present unlinkRaises : Bool) : Bool × Bool :=
  if present then
    if unlinkRaises then (true, true) else (false, false)
  else (false, false)

/-- Number of restart attempts recorded in an event list. -/
def countRestarts (evs : List Ev) : Nat :=
  evs.countP fun e => match e with
    | Ev.restart _ _ => true
    | _ => false

/-- Number of tunnel-down health-check observations in an event list. -/
def countDownChecks (evs : List Ev) : Nat :=
  evs.countP fun e => match e with
    | Ev.healthCheck b => !b
    | _ => false

/-- Stripping an already-stripped text changes nothing: leading strip of a
right-stripped left-stripped list is the identity. -/
theorem lstrip_rstrip_lstrip (l : List Char) :
    lstrip (rstrip (lstrip l)) = rstrip (lstrip l) := by
  unfold lstrip rstrip
  set m := List.dropWhile isPySpace l with hm
  rw [List.dropWhile_eq_self_iff]
  intro hl
  have hpref : List.rdropWhile isPySpace m <+: m := List.rdropWhile_prefix isPySpace m
  have h0 : 0 < m.length := lt_of_lt_of_le hl hpref.length_le
  have hhead : (List.rdropWhile isPySpace m).get ⟨0, hl⟩ = m.get ⟨0, h0⟩ := by
    simpa using hpref.getElem hl
  rw [hhead]
  exact List.dropWhile_get_zero_not isPySpace l h0

/-- Python `strip` is idempotent. -/
theorem pyStrip_idem (l : List Char) : pyStrip (pyStrip l) = pyStrip l := by
  unfold pyStrip
  rw [show rstrip (lstrip (rstrip (lstrip l))) = rstrip (rstrip (lstrip l)) from
        congrArg rstrip (lstrip_rstrip_lstrip l)]
  unfold rstrip
  exact List.rdropWhile_idempotent isPySpace (lstrip l)

/-- Claim C8: for every configuration text, parsing the serialized
ConfigArtifact (the stripped raw text that `create_config_file` writes —
serialization ignores the parsed mappings and re-emits the original text)
yields exactly the same parser result as parsing the original text. -/
theorem c8_roundtrip_parse_serialize (text : List Char) :
    parse_config (create_config_text text) = parse_config text := by
  unfold parse_config create_config_text
  rw [pyStrip_idem]

/-- Claim C4: `test_connection` classifies the observed post-tunnel IP in
exactly three ways: equal to the pre-tunnel IP means "unchanged" and
diagnostics is invoked; equal to the expected tunnel-exit IP means
"confirmed changed"; any other (in particular any other non-empty) IP means
"changed (unconfirmed)" and diagnostics is not invoked. -/
theorem c4_verification_classification (ip : String) :
    (ip = pre_tunnel_ip → test_connection_classify ip = (IPClass.unchanged, true)) ∧
    (ip = vpn_exit_ip → test_connection_classify ip = (IPClass.confirmedChanged, false)) ∧
    (ip ≠ pre_tunnel_ip → ip ≠ vpn_exit_ip →
      test_connection_classify ip = (IPClass.changedUnconfirmed, false)) := by
  refine ⟨fun h => by subst h; decide, fun h => by subst h; decide, fun h1 h2 => ?_⟩
  simp only [test_connection_classify, if_neg h2, ne_eq, h1, not_false_iff, if_pos]

/-- Witness for C4 at the three concrete inputs. -/
theorem c4_verification_classification_witness :
    test_connection_classify "49.145.198.195" = (IPClass.unchanged, true) ∧
    test_connection_classify "34.102.88.164" = (IPClass.confirmedChanged, false) ∧
    test_connection_classify "10.0.0.7" = (IPClass.changedUnconfirmed, false) :=
  ⟨(c4_verification_classification "49.145.198.195").1 rfl,
   (c4_verification_classification "34.102.88.164").2.1 rfl,
   (c4_verification_classification "10.0.0.7").2.2 (by decide) (by decide)⟩

/-- Claim C10: when both external-IP lookups raise, `get_real_ip` returns
the fixed non-empty sentinel, and `test_connection` then classifies the
result as changed-unconfirmed without invoking diagnostics. -/
theorem c10_ip_lookup_sentinel (w : NetWorld) (h1 : w.ipify = none)
    (h2 : w.ifconfigMe = none) :
    get_real_ip w = "Unable to determine" ∧
    test_connection_classify (get_real_ip w) = (IPClass.changedUnconfirmed, false) := by
  have hg : get_real_ip w = "Unable to determine" := by
    unfold get_real_ip
    rw [h1, h2]
  exact ⟨hg, by rw [hg]; decide⟩

/-- Witness for C10 at the both-lookups-raise world. -/
theorem c10_ip_lookup_sentinel_witness :
    get_real_ip ⟨none, none⟩ = "Unable to determine" ∧
    test_connection_classify (get_real_ip ⟨none, none⟩) =
      (IPClass.changedUnconfirmed, false) :=
  c10_ip_lookup_sentinel ⟨none, none⟩ rfl rfl

/-- Claim C5: precondition failures abort before any state change.  Without
elevation `run` returns `False` at once, before engine discovery; with
elevation but no engine found anywhere, it returns `False` after discovery
but before the ConfigArtifact is written and before any activation strategy
is attempted. -/
theorem c5_precondition_failures (w : RunWorld) :
    (w.isAdmin = false →
      run w = (false, []) ∧ Ev.discover ∉ (run w).2) ∧
    (w.isAdmin = true → w.engineFound = false →
      run w = (false, [Ev.discover]) ∧ Ev.writeConfig ∉ (run w).2 ∧
      ∀ s, Ev.attempt s ∉ (run w).2) := by
  constructor
  · intro h
    have hr : run w = (false, []) := by
      unfold run
      rw [h]
      rfl
    simp [hr]
  · intro h1 h2
    have hr : run w = (false, [Ev.discover]) := by
      unfold run
      rw [h1, h2]
      rfl
    simp [hr]

/-- Witness for C5: the non-elevated world and the engine-not-found world. -/
theorem c5_precondition_failures_witness :
    (run ⟨false, true, true, ⟨true, true, true, true⟩, [], Interrupt.cancel⟩ =
      (false, []) ∧
      Ev.discover ∉ (run ⟨false, true, true, ⟨true, true, true, true⟩, [],
        Interrupt.cancel⟩).2) ∧
    (run ⟨true, false, true, ⟨true, true, true, true⟩, [], Interrupt.cancel⟩ =
      (false, [Ev.discover]) ∧
      Ev.writeConfig ∉ (run ⟨true, false, true, ⟨true, true, true, true⟩, [],
        Interrupt.cancel⟩).2 ∧
      ∀ s, Ev.attempt s ∉ (run ⟨true, false, true, ⟨true, true, true, true⟩, [],
        Interrupt.cancel⟩).2) :=
  ⟨(c5_precondition_failures _).1 rfl, (c5_precondition_failures _).2 rfl rfl⟩

/-- Claim C1: the activation chain tries service install, quick-up and
manual configure strictly in order.  The quick strategy is attempted only
once the service strategy has failed (installer missing or exiting
non-zero); manual only once quick has also failed.  If service succeeds the
chain is exactly that one attempt; if service fails and quick succeeds, the
chain succeeds, manual is never attempted, and no strategy has run twice;
if only manual succeeds, the chain succeeds with each strategy run at most
once; if all three fail, the chain reports failure. -/
theorem c1_activation_chain_order (w : ActWorld) :
    (Strategy.quick ∈ (activation_chain w).2 →
      w.wgExeExists = false ∨ w.installOk = false) ∧
    (Strategy.manual ∈ (activation_chain w).2 →
      (w.wgExeExists = false ∨ w.installOk = false) ∧ w.quickOk = false) ∧
    (w.wgExeExists = true → w.installOk = true →
      activation_chain w = (true, [Strategy.service])) ∧
    ((w.wgExeExists = false ∨ w.installOk = false) → w.quickOk = true →
      (activation_chain w).1 = true ∧
      Strategy.manual ∉ (activation_chain w).2 ∧
      ∀ s, (activation_chain w).2.count s ≤ 1) ∧
    ((w.wgExeExists = false ∨ w.installOk = false) → w.quickOk = false →
      w.manualOk = true →
      (activation_chain w).1 = true ∧
      ∀ s, (activation_chain w).2.count s ≤ 1) ∧
    ((w.wgExeExists = false ∨ w.installOk = false) → w.quickOk = false →
      w.manualOk = false →
      (activation_chain w).1 = false) := by
  refine ⟨?_, ?_, ?_, ?_, ?_, ?_⟩ <;> revert w <;> decide

/-- Witness for C1: service install fails, quick-up succeeds; and the
engine's installer is present and succeeds. -/
theorem c1_activation_chain_order_witness :
    ((activation_chain ⟨true, false, true, false⟩).1 = true ∧
      Strategy.manual ∉ (activation_chain ⟨true, false, true, false⟩).2 ∧
      ∀ s, (activation_chain ⟨true, false, true, false⟩).2.count s ≤ 1) ∧
    activation_chain ⟨true, true, false, false⟩ = (true, [Strategy.service]) :=
  ⟨(c1_activation_chain_order ⟨true, false, true, false⟩).2.2.2.1
      (Or.inr rfl) rfl,
   (c1_activation_chain_order ⟨true, true, false, false⟩).2.2.1 rfl rfl⟩

/-- Claim C7: the health check is total (a raised probe is caught and
yields the same result as the tunnel being absent, namely "down"), and in
probe-error-free executions it reports the tunnel down exactly when the
engine status probe does not show the interface (non-zero exit or name not
in the output) and the service probe output does not contain RUNNING. -/
theorem c7_health_check_total (w : StatusWorld) :
    (∀ rc out scOut, w.wgShow = some (rc, out) → w.scQuery = some scOut →
      (check_tunnel_status_windows w = false ↔
        ((rc == 0) && strContains out interface_name) = false ∧
        strContains scOut "RUNNING" = false)) ∧
    (w.wgShow = none → check_tunnel_status_windows w = false) ∧
    (∀ rc out, w.wgShow = some (rc, out) →
      ((rc == 0) && strContains out interface_name) = false →
      w.scQuery = none → check_tunnel_status_windows w = false) := by
  obtain ⟨ws, sc⟩ := w
  refine ⟨?_, ?_, ?_⟩
  · intro rc out scOut h1 h2
    simp only at h1 h2
    subst h1
    subst h2
    simp only [check_tunnel_status_windows]
    cases hb : (rc == 0) && strContains out interface_name <;>
      cases hb2 : strContains scOut "RUNNING" <;> simp [hb, hb2]
  · intro h
    simp only at h
    subst h
    rfl
  · intro rc out h1 hb h2
    simp only at h1 h2
    subst h1
    subst h2
    simp [check_tunnel_status_windows, hb]

/-- Witness for C7: a world where both probes return but show nothing, one
where the engine probe raises, and one where the service probe raises. -/
theorem c7_health_check_total_witness :
    check_tunnel_status_windows ⟨some (1, "error"), some "STOPPED"⟩ = false ∧
    check_tunnel_status_windows ⟨none, some "RUNNING"⟩ = false ∧
    check_tunnel_status_windows ⟨some (1, "error"), none⟩ = false :=
  ⟨((c7_health_check_total ⟨some (1, "error"), some "STOPPED"⟩).1 1 "error"
      "STOPPED" rfl rfl).mpr ⟨by decide, by decide⟩,
   (c7_health_check_total ⟨none, some "RUNNING"⟩).2.1 rfl,
   (c7_health_check_total ⟨some (1, "error"), none⟩).2.2 1 "error" rfl
      (by decide) rfl⟩

/-- Counterexample to C9 as stated: in a run where no teardown call raises
but `wireguard.exe` is absent, `stop_tunnel_windows` never attempts the
uninstall-tunnel-service method (the source guards it behind
`os.path.exists`), although the call still reports success. -/
theorem c9_counterexample_uninstall_skipped :
    TDAct.uninstall ∉ (stop_tunnel_windows ⟨false, false, false, false⟩).2 ∧
    (stop_tunnel_windows ⟨false, false, false, false⟩).1 = true := by decide

/-- Claim C9 (amended): teardown never raises past its boundary (a raised
call is caught, logged and yields a `False` result, skipping the remaining
methods); service-stop is always attempted, quick-down whenever
service-stop did not raise, and uninstall-tunnel-service whenever
additionally the engine executable is present; exit codes are ignored.
Stop followed by artifact cleanup can be repeated: after a cleanup whose
deletion does not raise no ConfigArtifact remains, and a second cleanup
performs no action and reports no error. -/
theorem c9_teardown_idempotent (w : TDWorld) (present : Bool) :
    TDAct.scStop ∈ (stop_tunnel_windows w).2 ∧
    (TDAct.quickDown ∈ (stop_tunnel_windows w).2 ↔ w.scStopRaises = false) ∧
    (TDAct.uninstall ∈ (stop_tunnel_windows w).2 ↔
      w.scStopRaises = false ∧ w.quickDownRaises = false ∧
      w.wgExeExists = true) ∧
    (w.scStopRaises = false → w.quickDownRaises = false →
      w.uninstallRaises = false → (stop_tunnel_windows w).1 = true) ∧
    (cleanup_windows present false).1 = false ∧
    (∀ r, cleanup_windows (cleanup_windows present false).1 r =
      (false, false)) := by
  refine ⟨?_, ?_, ?_, ?_, ?_, ?_⟩ <;> revert w present <;> decide

/-- Witness for C9: engine executable present and nothing raising. -/
theorem c9_teardown_idempotent_witness :
    (stop_tunnel_windows ⟨false, false, true, false⟩).1 = true ∧
    (cleanup_windows true false).1 = false :=
  ⟨(c9_teardown_idempotent ⟨false, false, true, false⟩ true).2.2.2.1
      rfl rfl rfl,
   (c9_teardown_idempotent ⟨false, false, true, false⟩ true).2.2.2.2.1⟩

/-- A restart (a call to `start_tunnel_wg_quick`) attempts quick-up alone
when it exits zero, and quick-up followed by manual configure otherwise;
it never attempts the service-install strategy. -/
theorem start_tunnel_wg_quick_trace (w : ActWorld) :
    (start_tunnel_wg_quick w).2 = [Strategy.quick] ∨
    (start_tunnel_wg_quick w).2 = [Strategy.quick, Strategy.manual] := by
  revert w
  decide

/-- Counterexample to C2 as stated: at a down health check whose quick-up
fails but whose manual fallback succeeds, the single restart attempt also
runs the manual-configure strategy, and because the fallback succeeded the
loop continues instead of exiting. -/
theorem c2_counterexample_restart_runs_manual :
    Ev.restart [Strategy.quick, Strategy.manual] true ∈
      (supervise [⟨false, ⟨true, true, false, true⟩⟩]).1 ∧
    (supervise [⟨false, ⟨true, true, false, true⟩⟩]).2 = false := by
  decide

/-- Claim C2 (amended): whenever a health check reports the tunnel down,
exactly one restart attempt is made (one restart per down check); that
attempt re-runs the quick-up strategy, which internally falls back to the
manual-configure strategy when quick-up fails — the service-install
strategy is never re-attempted; and if the restart attempt fails (quick-up
and its manual fallback both fail) the loop exits at once, the failed
restart being the final event of the episode. -/
theorem c2_supervision_single_restart (ticks : List HTick) :
    (∀ tr ok, Ev.restart tr ok ∈ (supervise ticks).1 →
      tr = [Strategy.quick] ∨ tr = [Strategy.quick, Strategy.manual]) ∧
    countRestarts (supervise ticks).1 = countDownChecks (supervise ticks).1 ∧
    (∀ tr, Ev.restart tr false ∈ (supervise ticks).1 →
      (supervise ticks).2 = true) ∧
    ((supervise ticks).2 = true →
      ∃ evs tr, (supervise ticks).1 =
        evs ++ [Ev.healthCheck false, Ev.restart tr false]) := by
  induction ticks with
  | nil =>
    refine ⟨?_, ?_, ?_, ?_⟩ <;> simp [supervise, countRestarts, countDownChecks]
  | cons t rest ih =>
    obtain ⟨ih1, ih2, ih3, ih4⟩ := ih
    by_cases hup : t.up = true
    · simp only [supervise, hup, if_true]
      refine ⟨?_, ?_, ?_, ?_⟩
      · intro tr ok h
        simp only [List.mem_cons] at h
        rcases h with h | h
        · exact absurd h (by simp)
        · exact ih1 tr ok h
      · simp only [countRestarts, countDownChecks, List.countP_cons] at ih2 ⊢
        simpa using ih2
      · intro tr h
        simp only [List.mem_cons] at h
        rcases h with h | h
        · exact absurd h (by simp)
        · exact ih3 tr h
      · intro h
        obtain ⟨evs, tr, he⟩ := ih4 h
        exact ⟨Ev.healthCheck true :: evs, tr, by rw [he]; rfl⟩
    · simp only [Bool.not_eq_true] at hup
      by_cases hq : (start_tunnel_wg_quick t.w).1 = true
      · simp only [supervise, hup, Bool.false_eq_true, if_false, hq, if_true]
        refine ⟨?_, ?_, ?_, ?_⟩
        · intro tr ok h
          simp only [List.mem_cons] at h
          rcases h with h | h | h
          · exact absurd h (by simp)
          · have htr : tr = (start_tunnel_wg_quick t.w).2 := by
              injection h with h1 h2
            rw [htr]
            exact start_tunnel_wg_quick_trace t.w
          · exact ih1 tr ok h
        · simp only [countRestarts, countDownChecks, List.countP_cons] at ih2 ⊢
          simpa using ih2
        · intro tr h
          simp only [List.mem_cons] at h
          rcases h with h | h | h
          · exact absurd h (by simp)
          · exact absurd h (by simp)
          · exact ih3 tr h
        · intro h
          obtain ⟨evs, tr, he⟩ := ih4 h
          refine ⟨Ev.healthCheck false ::
            Ev.restart (start_tunnel_wg_quick t.w).2 true :: evs, tr, ?_⟩
          rw [he]
          rfl
      · simp only [Bool.not_eq_true] at hq
        simp only [supervise, hup, Bool.false_eq_true, if_false, hq]
        refine ⟨?_, ?_, ?_, ?_⟩
        · intro tr ok h
          simp only [List.mem_cons, List.not_mem_nil, or_false] at h
          rcases h with h | h
          · exact absurd h (by simp)
          · have htr : tr = (start_tunnel_wg_quick t.w).2 := by
              injection h with h1 h2
            rw [htr]
            exact start_tunnel_wg_quick_trace t.w
        · simp [countRestarts, countDownChecks, List.countP_cons]
        · exact fun tr _ => trivial
        · intro _
          exact ⟨[], (start_tunnel_wg_quick t.w).2, rfl⟩

/-- Witness for C2: a down check whose restart fails outright ends the
episode with the failed restart as final event. -/
theorem c2_supervision_single_restart_witness :
    ∃ evs tr, (supervise [⟨false, ⟨true, true, false, false⟩⟩]).1 =
      evs ++ [Ev.healthCheck false, Ev.restart tr false] :=
  (c2_supervision_single_restart [⟨false, ⟨true, true, false, false⟩⟩]).2.2.2
    (by decide)

/-- The supervision loop never performs a stop-tunnel action:
`stop_tunnel_windows` is not called from inside the `while` loop. -/
theorem supervise_no_stopTunnel (ticks : List HTick) :
    Ev.stopTunnel ∉ (supervise ticks).1 := by
  induction ticks with
  | nil => simp [supervise]
  | cons t rest ih =>
    by_cases hup : t.up = true
    · simp [supervise, hup, ih]
    · simp only [Bool.not_eq_true] at hup
      by_cases hq : (start_tunnel_wg_quick t.w).1 = true
      · simp [supervise, hup, hq, ih]
      · simp only [Bool.not_eq_true] at hq
        simp [supervise, hup, hq]

/-- A list ending in the cleanup event has it as last element. -/
theorem getLast_cleanup (l : List Ev) :
    (l ++ [Ev.cleanup]).getLast? = some Ev.cleanup := by
  rw [List.getLast?_append_cons]
  rfl

/-- Counterexample to C3 as stated: a run that reaches activation (the
service strategy succeeds) and then ends through a failed restart performs
the artifact cleanup but not the stop-tunnel teardown actions before
ending. -/
theorem c3_counterexample_no_stop_on_restart_failure :
    Ev.attempt Strategy.service ∈
      (run ⟨true, true, true, ⟨true, true, true, true⟩,
        [⟨false, ⟨true, true, false, false⟩⟩], Interrupt.cancel⟩).2 ∧
    Ev.cleanup ∈
      (run ⟨true, true, true, ⟨true, true, true, true⟩,
        [⟨false, ⟨true, true, false, false⟩⟩], Interrupt.cancel⟩).2 ∧
    Ev.stopTunnel ∉
      (run ⟨true, true, true, ⟨true, true, true, true⟩,
        [⟨false, ⟨true, true, false, false⟩⟩], Interrupt.cancel⟩).2 := by
  decide

/-- Claim C3 (amended): every run that passes the preconditions converges
on the `finally` artifact cleanup — on activation failure, on supervision
failure, on unexpected error and on cancellation the best-effort
ConfigArtifact deletion is the last action before the run ends — but the
stop-tunnel teardown actions (service-stop, quick-down,
uninstall-tunnel-service) are performed exactly on the cancellation path of
a run whose activation succeeded, not on supervision failure and not on
unexpected error. -/
theorem c3_cleanup_always_stop_only_on_cancel (w : RunWorld)
    (ha : w.isAdmin = true) (he : w.engineFound = true)
    (hc : w.createOk = true) :
    (run w).2.getLast? = some Ev.cleanup ∧
    (Ev.stopTunnel ∈ (run w).2 ↔
      (activation_chain w.act).1 = true ∧ (supervise w.health).2 = false ∧
      w.intr = Interrupt.cancel) := by
  obtain ⟨adm, eng, cr, act, health, intr⟩ := w
  simp only at ha he hc
  subst ha
  subst he
  subst hc
  have hns := supervise_no_stopTunnel health
  by_cases hab : (activation_chain act).1 = true
  · by_cases hsb : (supervise health).2 = true
    · simp only [run, hab, hsb, Bool.not_true, Bool.false_eq_true, if_false,
        if_true, Bool.not_false]
      constructor
      · exact getLast_cleanup _
      · simp [hsb, hns]
    · simp only [Bool.not_eq_true] at hsb
      cases intr
      · simp only [run, hab, hsb, Bool.not_true, Bool.false_eq_true, if_false,
          if_true, Bool.not_false]
        constructor
        · exact getLast_cleanup _
        · simp [hab, hsb]
      · simp only [run, hab, hsb, Bool.not_true, Bool.false_eq_true, if_false,
          if_true, Bool.not_false]
        constructor
        · exact getLast_cleanup _
        · simp [hns]
  · simp only [Bool.not_eq_true] at hab
    simp only [run, hab, Bool.not_true, Bool.false_eq_true, if_false, if_true,
      Bool.not_false]
    constructor
    · exact getLast_cleanup _
    · simp [hab]

/-- Witness for C3 at the cancellation scenario. -/
theorem c3_cleanup_always_stop_only_on_cancel_witness :
    (run ⟨true, true, true, ⟨true, true, true, true⟩, [],
      Interrupt.cancel⟩).2.getLast? = some Ev.cleanup ∧
    (Ev.stopTunnel ∈ (run ⟨true, true, true, ⟨true, true, true, true⟩, [],
      Interrupt.cancel⟩).2 ↔
      (activation_chain ⟨true, true, true, true⟩).1 = true ∧
      (supervise []).2 = false ∧
      (Interrupt.cancel : Interrupt) = Interrupt.cancel) :=
  c3_cleanup_always_stop_only_on_cancel
    ⟨true, true, true, ⟨true, true, true, true⟩, [], Interrupt.cancel⟩
    rfl rfl rfl

/-- In-place dict update: when the key is present, replacing its binding
makes lookup return the new value. -/
theorem find_replace_eq (m : List (List Char × List Char)) (k v : List Char)
    (h : m.any (fun p => p.1 = k) = true) :
    (m.map (fun p => if p.1 = k then (k, v) else p)).find?
      (fun p => p.1 = k) = some (k, v) := by
  induction m with
  | nil => simp at h
  | cons p rest ih =>
    by_cases hp : p.1 = k
    · simp [hp]
    · simp only [List.any_cons, Bool.or_eq_true, decide_eq_true_eq] at h
      rcases h with h | h
      · exact absurd h hp
      · simp only [List.map_cons, if_neg hp]
        rw [List.find?_cons_of_neg]
        · exact ih (by simpa using h)
        · simpa using hp

/-- Appending a fresh binding: when the key is absent, lookup on the
extended dict returns the appended value. -/
theorem find_append_eq (m : List (List Char × List Char)) (k v : List Char)
    (h : m.any (fun p => p.1 = k) = false) :
    (m ++ [(k, v)]).find? (fun p => p.1 = k) = some (k, v) := by
  induction m with
  | nil => simp
  | cons p rest ih =>
    rw [List.any_cons, Bool.or_eq_false_iff] at h
    rw [List.cons_append, List.find?_cons_of_neg]
    · exact ih h.2
    · simpa using h.1

/-- Last-write-wins: a dict assignment makes lookup of that key return the
assigned value, whether or not the key was already bound. -/
theorem dictGet_dictSet (m : List (List Char × List Char)) (k v : List Char) :
    dictGet (dictSet m k v) k = some v := by
  unfold dictGet dictSet
  by_cases h : m.any (fun p => p.1 = k) = true
  · rw [if_pos h, find_replace_eq m k v h]
    rfl
  · rw [if_neg h, find_append_eq m k v (by rwa [Bool.not_eq_true] at h)]
    rfl

/-- Claim C6: the parser is total by construction (`processLine` is a total
function folded over the split lines) and permissive: a line that strips to
nothing adds nothing; a `#`-comment line adds nothing; a line without `=`
changes neither mapping; while the current section is not
`interface`/`peer` no line changes either mapping (unknown-section keys are
dropped); and assigning a key already present keeps the last value. -/
theorem c6_parse_config_permissive :
    (∀ st rawLine, pyStrip rawLine = [] → processLine st rawLine = st) ∧
    (∀ st rawLine, (pyStrip rawLine).head? = some '#' →
      processLine st rawLine = st) ∧
    (∀ st rawLine, (pyStrip rawLine).contains '=' = false →
      (processLine st rawLine).interface_config = st.interface_config ∧
      (processLine st rawLine).peer_config = st.peer_config) ∧
    (∀ st rawLine, st.cur ≠ some ("interface".toList) →
      st.cur ≠ some ("peer".toList) →
      (processLine st rawLine).interface_config = st.interface_config ∧
      (processLine st rawLine).peer_config = st.peer_config) ∧
    (∀ m k v, dictGet (dictSet m k v) k = some v) := by
  refine ⟨?_, ?_, ?_, ?_, fun m k v => dictGet_dictSet m k v⟩
  · intro st rawLine h
    simp [processLine, h]
  · intro st rawLine h
    cases hl : pyStrip rawLine with
    | nil => rw [hl] at h; simp at h
    | cons c cs =>
      rw [hl] at h
      simp only [List.head?_cons, Option.some.injEq] at h
      subst h
      simp [processLine, hl]
  · intro st rawLine h
    simp only [processLine, h, Bool.false_eq_true, if_false]
    split_ifs <;> exact ⟨rfl, rfl⟩
  · intro st rawLine h1 h2
    simp only [processLine, if_neg h1, if_neg h2]
    split_ifs <;> exact ⟨rfl, rfl⟩

/-- Witness for C6 at concrete lines and dict states. -/
theorem c6_parse_config_permissive_witness :
    processLine initState ("   ".toList) = initState ∧
    processLine initState ("# comment".toList) = initState ∧
    (processLine initState ("noequals".toList)).interface_config =
      initState.interface_config ∧
    (processLine ⟨some ("weird".toList), [], []⟩
      ("Foo = Bar".toList)).peer_config = [] ∧
    dictGet (dictSet [(("A".toList), ("1".toList))] ("A".toList) ("2".toList))
      ("A".toList) = some ("2".toList) :=
  ⟨c6_parse_config_permissive.1 initState ("   ".toList) (by decide),
   c6_parse_config_permissive.2.1 initState ("# comment".toList) (by decide),
   (c6_parse_config_permissive.2.2.1 initState ("noequals".toList)
      (by decide)).1,
   (c6_parse_config_permissive.2.2.2.1 ⟨some ("weird".toList), [], []⟩
      ("Foo = Bar".toList) (by decide) (by decide)).2,
   c6_parse_config_permissive.2.2.2.2 [(("A".toList), ("1".toList))]
      ("A".toList) ("2".toList)⟩
